import Mathlib

/-!
Verification of the bedrock-agent-ecr-auto-deploy repository.

The repository is a small Python deployment pipeline:
  * src/setup.py        — Resource Provisioner (idempotent infrastructure creation)
  * src/deploy.py       — Build Trigger (package, upload, start build, poll, deploy image)
  * src/auto_deploy_lambda.py — Deployment Reactor (EventBridge-triggered agent creation)
  * src/tool_executor.py — Tool Executor (Bedrock Agent action dispatcher)

This file gives a shallow embedding of those programs.  Cloud services
(ECR, S3, IAM, Lambda, Bedrock, EventBridge, CodeBuild) are modelled as
explicit state / effect logs; nondeterministic inputs (the wall clock, the
service-assigned agent id, build status sequences) are inputs of the
embedded functions.
-/

/-! ## JSON values and Python json.dumps

Python dictionaries serialized by json.dumps keep insertion order, so a JSON
object is modelled as an ordered association list.  Python distinguishes int
and float at serialization time (72 vs 579.0); float values are modelled as
rationals, which is exact for every value the programs produce. -/

/-- JSON value as produced by the Python sources.  jint serializes without a
decimal point, jfloat with one (CPython float repr on integral values). -/
inductive JValue where
  | jnull : JValue
  | jstr : String → JValue
  | jint : Int → JValue
  | jfloat : Rat → JValue
  | jarr : List JValue → JValue
  | jobj : List (String × JValue) → JValue

/-- Escape of one character inside a JSON string, as json.dumps does for the
characters the sources can produce (ASCII; the ensure-ascii escaping of
non-ASCII characters is not exercised by this repository). -/
def escapeChar (c : Char) : String :=
  if c = '"' then "\\\""
  else if c = '\\' then "\\\\"
  else if c = '\n' then "\\n"
  else if c = '\t' then "\\t"
  else if c = '\r' then "\\r"
  else String.singleton c

/-- Escape a whole string for embedding in JSON output. -/
def escapeString (s : String) : String :=
  String.join (s.data.map escapeChar)

/-- Serialization of a Python float value.  Every float the sources serialize
is integral (sums of int-valued parses, the literal defaults), where CPython
prints the integer followed by ".0"; the non-integral fallback keeps the
function total but is not exercised. -/
def floatRepr (q : Rat) : String :=
  if q.den = 1 then toString q.num ++ ".0"
  else toString q.num ++ "/" ++ toString q.den

mutual
/-- Compact json.dumps with the CPython default separators (", " and ": "). -/
def dumps : JValue → String
  | .jnull => "null"
  | .jstr s => "\"" ++ escapeString s ++ "\""
  | .jint n => toString n
  | .jfloat q => floatRepr q
  | .jarr vs => "[" ++ dumpsElems vs ++ "]"
  | .jobj fs => "\x7b" ++ dumpsFields fs ++ "\x7d"

/-- Comma-separated serialization of array elements. -/
def dumpsElems : List JValue → String
  | [] => ""
  | [v] => dumps v
  | v :: rest => dumps v ++ ", " ++ dumpsElems rest

/-- Comma-separated serialization of object fields. -/
def dumpsFields : List (String × JValue) → String
  | [] => ""
  | [(k, v)] => "\"" ++ escapeString k ++ "\": " ++ dumps v
  | (k, v) :: rest =>
      "\"" ++ escapeString k ++ "\": " ++ dumps v ++ ", " ++ dumpsFields rest
end

/-- Run of n spaces, for indented serialization. -/
def spaces (n : Nat) : String :=
  String.mk (List.replicate n ' ')

mutual
/-- Serialization as json.dumps(., indent=2) renders it: objects spread one
field per line, nested levels indented two further spaces, item separator
"," and key separator ": ".  level is the nesting depth of the value. -/
def dumpsIndent2 (level : Nat) : JValue → String
  | .jobj [] => "\x7b\x7d"
  | .jobj fs =>
      "\x7b\n" ++ dumpsIndent2Fields (level + 1) fs ++ "\n" ++
        spaces (2 * level) ++ "\x7d"
  | .jarr [] => "[]"
  | .jarr vs =>
      "[\n" ++ dumpsIndent2Elems (level + 1) vs ++ "\n" ++
        spaces (2 * level) ++ "]"
  | .jnull => "null"
  | .jstr s => "\"" ++ escapeString s ++ "\""
  | .jint n => toString n
  | .jfloat q => floatRepr q

/-- Indented serialization of array elements, one per line. -/
def dumpsIndent2Elems (level : Nat) : List JValue → String
  | [] => ""
  | [v] => spaces (2 * level) ++ dumpsIndent2 level v
  | v :: rest =>
      spaces (2 * level) ++ dumpsIndent2 level v ++ ",\n" ++
        dumpsIndent2Elems level rest

/-- Indented serialization of object fields, one per line. -/
def dumpsIndent2Fields (level : Nat) : List (String × JValue) → String
  | [] => ""
  | [(k, v)] => spaces (2 * level) ++ "\"" ++ escapeString k ++ "\": " ++ dumpsIndent2 level v
  | (k, v) :: rest =>
      spaces (2 * level) ++ "\"" ++ escapeString k ++ "\": " ++ dumpsIndent2 level v ++ ",\n" ++
        dumpsIndent2Fields level rest
end

/-! ## Timestamps and strftime

datetime.now().strftime('%Y%m%d-%H%M%S') in auto_deploy_lambda.py.  The
current wall-clock time is an input of the embedding. -/

/-- Wall-clock timestamp as read by datetime.now(). -/
structure Timestamp where
  year : Nat
  month : Nat
  day : Nat
  hour : Nat
  minute : Nat
  second : Nat
  deriving Repr, DecidableEq

/-- Ranges a datetime.now() result satisfies (4-digit year era; strftime
zero-pads %Y to four digits and the other fields to two within these
ranges, which is what the padding functions below produce). -/
def Timestamp.Valid (t : Timestamp) : Prop :=
  1000 ≤ t.year ∧ t.year ≤ 9999 ∧ 1 ≤ t.month ∧ t.month ≤ 12 ∧
    1 ≤ t.day ∧ t.day ≤ 31 ∧ t.hour ≤ 23 ∧ t.minute ≤ 59 ∧ t.second ≤ 59

instance (t : Timestamp) : Decidable t.Valid := by
  unfold Timestamp.Valid; infer_instance

/-- ASCII digit character for d < 10. -/
def digitChar (d : Nat) : Char :=
  Char.ofNat (48 + d)

/-- Two zero-padded decimal digits of n (n < 100 in every use). -/
def pad2 (n : Nat) : List Char :=
  [digitChar (n / 10 % 10), digitChar (n % 10)]

/-- Four zero-padded decimal digits of n (1000 ≤ n ≤ 9999 in every use). -/
def pad4 (n : Nat) : List Char :=
  [digitChar (n / 1000 % 10), digitChar (n / 100 % 10),
    digitChar (n / 10 % 10), digitChar (n % 10)]

/-- strftime('%Y%m%d-%H%M%S') on a timestamp. -/
def strftimeYmdHMS (t : Timestamp) : String :=
  String.mk (pad4 t.year ++ pad2 t.month ++ pad2 t.day ++
    '-' :: (pad2 t.hour ++ pad2 t.minute ++ pad2 t.second))

/-- Test for an ASCII decimal digit. -/
def isDigitCh (c : Char) : Bool :=
  decide (48 ≤ c.toNat) && decide (c.toNat ≤ 57)

/-- Recognizer for the generated-name timestamp shape: 8 digits, a hyphen,
6 digits (14 digits in total, YYYYMMDD-HHMMSS). -/
def isTimestamp14 (s : String) : Bool :=
  match s.data with
  | [c1, c2, c3, c4, c5, c6, c7, c8, c9, c10, c11, c12, c13, c14, c15] =>
      isDigitCh c1 && isDigitCh c2 && isDigitCh c3 && isDigitCh c4 &&
      isDigitCh c5 && isDigitCh c6 && isDigitCh c7 && isDigitCh c8 &&
      (c9 == '-') &&
      isDigitCh c10 && isDigitCh c11 && isDigitCh c12 && isDigitCh c13 &&
      isDigitCh c14 && isDigitCh c15
  | _ => false

theorem isDigitCh_digitChar (d : Nat) (h : d < 10) :
    isDigitCh (digitChar d) = true := by
  interval_cases d <;> rfl

theorem isDigitCh_digitChar_mod (n : Nat) :
    isDigitCh (digitChar (n % 10)) = true :=
  isDigitCh_digitChar _ (Nat.mod_lt _ (by norm_num))

theorem isTimestamp14_strftime (t : Timestamp) :
    isTimestamp14 (strftimeYmdHMS t) = true := by
  simp [strftimeYmdHMS, isTimestamp14, pad4, pad2, isDigitCh_digitChar_mod]

/-! ## Tool Executor (src/tool_executor.py)

lambda_handler dispatches a Bedrock Agent action on the tool name and wraps
the result in the fixed response envelope.  The pytz timezone database and
the current local time are external collaborators, modelled as an
environment of functions; float() is modelled as an exact parser into
rationals (exact for every finite literal; the nonfinite literals inf/nan
that float() also accepts are not exercised by this repository). -/

namespace ToolExecutor

/-- One element of the request's parameters list (a name/value pair). -/
structure Param where
  name : String
  value : String
  deriving Repr, DecidableEq

/-- Invocation event as read by lambda_handler via event.get: absent keys
are None (the parameters key defaults to the empty list). -/
structure ToolEvent where
  actionGroup : Option String
  apiPath : Option String
  function : Option String
  parameters : List Param
  deriving Repr, DecidableEq

/-- External collaborators of get_time: pytz timezone validity and the
formatted current time in a timezone (strftime %I:%M %p, %Y-%m-%d, %A). -/
structure PyEnv where
  validTz : String → Bool
  tzTimeStr : String → String
  tzDateStr : String → String
  tzDayStr : String → String

/-- Uncaught Python exception escaping lambda_handler. -/
inductive PyError where
  | valueError (msg : String)
  deriving Repr, DecidableEq

/-- Lookup in the params dict built by the comprehension
\x7bp['name']: p['value'] for p in parameters\x7d; a later duplicate name
overwrites an earlier one, hence the last match wins. -/
def paramsGet (ps : List Param) (k : String) : Option String :=
  match ps.reverse.find? (fun p => p.name == k) with
  | some p => some p.value
  | none => none

/-- Python str.strip('/'): remove leading and trailing slashes. -/
def stripSlashes (s : String) : String :=
  String.mk (((s.data.dropWhile (· == '/')).reverse.dropWhile (· == '/')).reverse)

/-- Value of (api_path.strip('/') if api_path else None): None when apiPath
is absent or empty (falsy), the stripped path otherwise. -/
def apiPathPart (e : ToolEvent) : Option String :=
  match e.apiPath with
  | some s => if s ≠ "" then some (stripSlashes s) else none
  | none => none

/-- Value of function_name or (api_path.strip('/') if api_path else None):
Python or falls through on None and on the empty string. -/
def toolName (e : ToolEvent) : Option String :=
  match e.function with
  | some s => if s ≠ "" then some s else apiPathPart e
  | none => apiPathPart e

/-- Text interpolated for the tool name in the unknown-tool message:
f-strings render None as the string None. -/
def optionText : Option String → String
  | none => "None"
  | some s => s

/-- Digit list check used by the float parser. -/
def allDigits (cs : List Char) : Bool :=
  cs.all isDigitCh

/-- Numeric value of a digit list. -/
def digitsVal (cs : List Char) : Nat :=
  cs.foldl (fun a c => a * 10 + (c.toNat - 48)) 0

/-- Mantissa of a float literal: digits, digits.digits, digits. or .digits. -/
def parseMantissa (cs : List Char) : Option Rat :=
  match cs.splitOn '.' with
  | [ip] =>
      if ip ≠ [] && allDigits ip then some ((digitsVal ip : Nat) : Rat) else none
  | [ip, fp] =>
      if (ip ≠ [] || fp ≠ []) && allDigits ip && allDigits fp then
        some (((digitsVal ip : Nat) : Rat) +
          ((digitsVal fp : Nat) : Rat) / ((10 : Rat) ^ fp.length))
      else none
  | _ => none

/-- Exponent part of a float literal: optional sign, then digits. -/
def parseExp (cs : List Char) : Option Int :=
  match cs with
  | '+' :: rest => if rest ≠ [] && allDigits rest then some ((digitsVal rest : Nat) : Int) else none
  | '-' :: rest => if rest ≠ [] && allDigits rest then some (-((digitsVal rest : Nat) : Int)) else none
  | rest => if rest ≠ [] && allDigits rest then some ((digitsVal rest : Nat) : Int) else none

/-- Scale a mantissa by a power of ten. -/
def applyExp (m : Rat) (e : Int) : Rat :=
  if 0 ≤ e then m * (10 : Rat) ^ e.toNat else m / (10 : Rat) ^ (-e).toNat

/-- Unsigned float literal with optional exponent (e or E). -/
def parseUnsigned (cs : List Char) : Option Rat :=
  match (cs.map (fun c => if c == 'E' then 'e' else c)).splitOn 'e' with
  | [m] => parseMantissa m
  | [m, ex] =>
      match parseMantissa m, parseExp ex with
      | some mv, some ev => some (applyExp mv ev)
      | _, _ => none
  | _ => none

/-- Python float(s) on a string: strip whitespace, optional sign, decimal
literal with optional exponent; none models the ValueError raise.  Exact
over the rationals. -/
def pyFloat (s : String) : Option Rat :=
  let cs := ((s.data.dropWhile Char.isWhitespace).reverse.dropWhile Char.isWhitespace).reverse
  match cs with
  | '+' :: rest => parseUnsigned rest
  | '-' :: rest => (parseUnsigned rest).map (fun r => -r)
  | rest => parseUnsigned rest

/-- Evaluation of float(params.get(k, 0)): the absent-key default is the
int 0 (float 0 = 0.0); a present value is a string fed to float(), whose
parse failure raises ValueError out of the handler. -/
def floatOfParam : Option String → Except PyError Rat
  | none => .ok 0
  | some s =>
      match pyFloat s with
      | some r => .ok r
      | none => .error (.valueError ("could not convert string to float: " ++ s))

/-- Body of the get_time branch: the try block formats the current time in
the requested timezone; any exception (in particular the UnknownTimeZoneError
of pytz.timezone) is caught by the bare except and turned into the
structured invalid-timezone object. -/
def timeResult (env : PyEnv) (tz : String) : JValue :=
  if env.validTz tz then
    .jobj [("time", .jstr (env.tzTimeStr tz)), ("date", .jstr (env.tzDateStr tz)),
      ("timezone", .jstr tz), ("day", .jstr (env.tzDayStr tz))]
  else
    .jobj [("error", .jstr ("Invalid timezone: " ++ tz))]

/-- Dispatch on the tool name, mirroring the if/elif/else chain.  In the
calculate branch Python evaluates float(a) first, so when both parameters
are bad the a-side ValueError is the one that propagates. -/
def toolResult (env : PyEnv) (e : ToolEvent) : Except PyError JValue :=
  let ps := e.parameters
  let tn := toolName e
  if tn == some "get_weather" then
    let city := (paramsGet ps "city").getD "Unknown"
    .ok (.jobj [("weather", .jstr ("Sunny in " ++ city)),
      ("temperature", .jint 72), ("humidity", .jint 65)])
  else if tn == some "calculate" then
    match floatOfParam (paramsGet ps "a"), floatOfParam (paramsGet ps "b") with
    | .ok a, .ok b => .ok (.jobj [("result", .jfloat (a + b))])
    | .error err, _ => .error err
    | .ok _, .error err => .error err
  else if tn == some "get_time" then
    let tz := (paramsGet ps "timezone").getD "UTC"
    .ok (timeResult env tz)
  else
    .ok (.jobj [("error", .jstr ("Unknown tool: " ++ optionText tn))])

/-- Option String rendered into the response envelope (None becomes null). -/
def optJson : Option String → JValue
  | none => .jnull
  | some s => .jstr s

/-- Fixed Bedrock Agent response envelope built by the final return. -/
def bedrockEnvelope (actionGroup fn : Option String) (body : String) : JValue :=
  .jobj [("messageVersion", .jstr "1.0"),
    ("response", .jobj [
      ("actionGroup", optJson actionGroup),
      ("function", optJson fn),
      ("functionResponse", .jobj [
        ("responseBody", .jobj [
          ("TEXT", .jobj [("body", .jstr body)])])])])]

/-- lambda_handler of src/tool_executor.py: compute the tool result, then
return it wrapped in the envelope with the echoed action group and function
name and the json.dumps-serialized result as the text body; an uncaught
exception in the dispatch propagates out of the handler. -/
def lambda_handler (env : PyEnv) (e : ToolEvent) : Except PyError JValue :=
  match toolResult env e with
  | .ok result => .ok (bedrockEnvelope e.actionGroup e.function (dumps result))
  | .error err => .error err

end ToolExecutor

/-! ## Deployment Reactor (src/auto_deploy_lambda.py)

lambda_handler reads the environment variables, queries ECR for the most
recent image, updates the pre-provisioned tool-executor Lambda, creates a
Bedrock Agent with action group, and stores the deployment record in S3
twice.  The remote calls are modelled as effect logs; the wall clock and the
service-assigned agent id are inputs. -/

namespace AutoDeploy

/-- Inputs of one reactor invocation: environment variables, the caller
account and region, the ECR repository contents (imageDigests head is the
single image describe_images maxResults=1 returns), whether the
AgentCoreToolExecutor function exists (update_function_code raises
ResourceNotFoundException otherwise) and its ARN, the agentId that
bedrock.create_agent assigns, and the datetime.now() reading. -/
structure DeployEnv where
  bucket : String
  repoName : String
  agentRoleArn : String
  accountId : String
  region : String
  imageDigests : List String
  toolExecutorExists : Bool
  toolExecutorArn : String
  newAgentId : String
  now : Timestamp
  deriving Repr, DecidableEq

/-- One s3.put_object call. -/
structure S3Put where
  bucket : String
  key : String
  body : String
  contentType : String
  deriving Repr, DecidableEq

/-- One bedrock.create_agent call. -/
structure CreatedAgent where
  agentName : String
  agentResourceRoleArn : String
  foundationModel : String
  instruction : String
  deriving Repr, DecidableEq

/-- One bedrock.create_agent_action_group call (the static functionSchema is
abbreviated to its function names). -/
structure ActionGroupCreate where
  agentId : String
  agentVersion : String
  actionGroupName : String
  executorLambdaArn : String
  functionNames : List String
  deriving Repr, DecidableEq

/-- Return value of the handler. -/
structure LambdaResult where
  statusCode : Nat
  body : String
  deriving Repr, DecidableEq

/-- Effect log plus return value of one reactor invocation. -/
structure DeployOutcome where
  functionCodeUpdates : List (String × String)
  createdAgents : List CreatedAgent
  actionGroupCreates : List ActionGroupCreate
  preparedAgents : List String
  s3Puts : List S3Put
  result : LambdaResult
  deriving Repr, DecidableEq

/-- Digest-qualified image URI derived from the described image. -/
def imageUriOf (env : DeployEnv) (digest : String) : String :=
  env.accountId ++ ".dkr.ecr." ++ env.region ++ ".amazonaws.com/" ++
    env.repoName ++ "@" ++ digest

/-- Deployment Record dict agent_info, in insertion order. -/
structure AgentInfo where
  agent_id : String
  agent_name : String
  version : String
  image_uri : String
  lambda_arn : String
  created_at : String
  deriving Repr, DecidableEq

/-- JSON rendering of the agent_info dict. -/
def AgentInfo.toJson (a : AgentInfo) : JValue :=
  .jobj [("agent_id", .jstr a.agent_id), ("agent_name", .jstr a.agent_name),
    ("version", .jstr a.version), ("image_uri", .jstr a.image_uri),
    ("lambda_arn", .jstr a.lambda_arn), ("created_at", .jstr a.created_at)]

/-- Deployment Record the handler assembles on the success path: the single
timestamp captured at the start of the invocation is used for agent_name,
version and created_at alike. -/
def agentInfoOf (env : DeployEnv) (digest : String) : AgentInfo :=
  let timestamp := strftimeYmdHMS env.now
  { agent_id := env.newAgentId,
    agent_name := "agent-core-" ++ timestamp,
    version := timestamp,
    image_uri := imageUriOf env digest,
    lambda_arn := env.toolExecutorArn,
    created_at := timestamp }

/-- Empty effect log for the early-return paths. -/
def noEffects (r : LambdaResult) : DeployOutcome :=
  { functionCodeUpdates := [], createdAgents := [], actionGroupCreates := [],
    preparedAgents := [], s3Puts := [], result := r }

/-- lambda_handler of src/auto_deploy_lambda.py.  Control flow in source
order: empty describe_images result returns 400 No images found; a missing
AgentCoreToolExecutor function (ResourceNotFoundException from
update_function_code) returns 400 Lambda not found; otherwise the function
code is updated, one agent is created, its action group attached, the agent
prepared, the record written under the versioned key and the latest key,
and a 200 summary returned.  The fixed time.sleep delays have no effect in
this model. -/
def lambda_handler (env : DeployEnv) : DeployOutcome :=
  match env.imageDigests with
  | [] => noEffects ⟨400, "No images found"⟩
  | digest :: _ =>
    let image_uri := imageUriOf env digest
    let timestamp := strftimeYmdHMS env.now
    if env.toolExecutorExists then
      let agent_name := "agent-core-" ++ timestamp
      let agent_id := env.newAgentId
      let info := agentInfoOf env digest
      let infoBody := dumpsIndent2 0 info.toJson
      { functionCodeUpdates := [("AgentCoreToolExecutor", image_uri)],
        createdAgents := [⟨agent_name, env.agentRoleArn,
          "anthropic.claude-3-sonnet-20240229-v1:0",
          "You are a helpful assistant with custom tools for weather, calculations, and more."⟩],
        actionGroupCreates := [⟨agent_id, "DRAFT", "core-tools",
          env.toolExecutorArn, ["get_weather", "calculate"]⟩],
        preparedAgents := [agent_id],
        s3Puts := [⟨env.bucket, "agents/agent-" ++ timestamp ++ ".json", infoBody, "application/json"⟩,
          ⟨env.bucket, "agents/latest.json", infoBody, "application/json"⟩],
        result := ⟨200, dumps (.jobj [("agent_id", .jstr agent_id),
          ("agent_name", .jstr agent_name), ("version", .jstr timestamp),
          ("image_uri", .jstr image_uri)])⟩ }
    else
      noEffects ⟨400, "Lambda not found"⟩

/-- Apply a put_object log to an S3 store (bucket and key to body); a later
put to the same location overwrites an earlier one. -/
def applyPuts (puts : List S3Put) (store : String → String → Option String) :
    String → String → Option String :=
  fun b k =>
    match puts.reverse.find? (fun p => p.bucket == b && p.key == k) with
    | some p => some p.body
    | none => store b k

end AutoDeploy

/-! ## Build Trigger (src/deploy.py)

deploy packages the source, uploads it, starts the CodeBuild build, and
polls batch_get_builds every 15 seconds until a terminal status: SUCCEEDED
breaks out of the loop, any of FAILED/FAULT/TIMED_OUT/STOPPED returns
False; only after a successful build does it query ECR and create or update
the AgentCoreToolExecutor function and read back the config object.  The
sequence of statuses the poll observes is an input of the embedding. -/

namespace BuildTrigger

/-- CodeBuild build status values. -/
inductive BuildStatus where
  | pending
  | inProgress
  | succeeded
  | failed
  | fault
  | timedOut
  | stopped
  deriving Repr, DecidableEq

/-- Membership in the failure list ['FAILED', 'FAULT', 'TIMED_OUT', 'STOPPED']. -/
def isFailureStatus : BuildStatus → Bool
  | .failed => true
  | .fault => true
  | .timedOut => true
  | .stopped => true
  | _ => false

/-- Terminal statuses: the ones after which the poll loop stops. -/
def isTerminal (s : BuildStatus) : Bool :=
  s == .succeeded || isFailureStatus s

/-- Poll loop of deploy: walk the observed statuses; true on SUCCEEDED,
false on a failure status, keep polling otherwise.  none models a trace
that ends before any terminal status arrived (the loop would still be
polling; it has no timeout of its own). -/
def pollBuild : List BuildStatus → Option Bool
  | [] => none
  | s :: rest =>
    if s == .succeeded then some true
    else if isFailureStatus s then some false
    else pollBuild rest

/-- Inputs of one deploy run: the statuses the poll observes, the repository
contents after the build, and whether AgentCoreToolExecutor already exists
(create_function raises ResourceConflictException in that case and the
except branch updates instead). -/
structure World where
  statuses : List BuildStatus
  imageDigests : List String
  toolExecutorExists : Bool
  accountId : String
  region : String
  deriving Repr, DecidableEq

/-- Effect log and result of one deploy run.  success is true when the run
reaches DEPLOYMENT COMPLETE, false when it returned False after a failed
build. -/
structure RunLog where
  sourceUploads : List String
  buildsStarted : Nat
  imagesQueried : Nat
  fnCreates : List (String × String)
  fnUpdates : List (String × String)
  configReads : Nat
  success : Bool
  deriving Repr, DecidableEq

/-- Effect log of a deploy run that got no further than starting the build
and polling: the source archive upload and the start_build call have
happened, none of the downstream steps have. -/
def preBuildLog : RunLog :=
  { sourceUploads := ["source.zip"], buildsStarted := 1, imagesQueried := 0,
    fnCreates := [], fnUpdates := [], configReads := 0, success := false }

/-- deploy of src/deploy.py over an explicit trace.  The upload and
start_build happen before polling; a failure status returns False with no
downstream effect; after SUCCEEDED the latest image is described (an empty
repository would raise IndexError at imageDetails[0], modelled as error)
and the executor function created or updated, then the config object read
(its absence is caught and only logged).  A trace without a terminal status
leaves the loop still polling, modelled as error. -/
def deploy (w : World) : Except String RunLog :=
  let base := preBuildLog
  match pollBuild w.statuses with
  | none => .error "poll loop still waiting: no terminal status observed"
  | some false => .ok base
  | some true =>
    match w.imageDigests with
    | [] => .error "IndexError: imageDetails is empty"
    | digest :: _ =>
      let image_uri := w.accountId ++ ".dkr.ecr." ++ w.region ++
        ".amazonaws.com/agent-core-tools@" ++ digest
      .ok { base with
        imagesQueried := 1,
        fnCreates := if w.toolExecutorExists then [] else [("AgentCoreToolExecutor", image_uri)],
        fnUpdates := if w.toolExecutorExists then [("AgentCoreToolExecutor", image_uri)] else [],
        configReads := 1,
        success := true }

end BuildTrigger

/-! ## Resource Provisioner (src/setup.py)

setup walks through the nine numbered provisioning steps in source order.
Every create call is wrapped so that an already-exists signal adopts the
existing resource; convergent calls (put_role_policy, put_rule, put_targets,
update_function_code and update_function_configuration) overwrite the stored
configuration.  The cloud account state is an explicit InfraState record;
ARNs are the deterministic names AWS derives from account, region and
resource name, which is what both the create response and the get fallback
return. -/

namespace Provisioner

/-- Ambient account and region read from STS and the session. -/
structure Cfg where
  accountId : String
  region : String
  deriving Repr, DecidableEq

/-- IAM role ARN for a role name. -/
def roleArn (cfg : Cfg) (name : String) : String :=
  "arn:aws:iam::" ++ cfg.accountId ++ ":role/" ++ name

/-- Lambda function ARN for a function name. -/
def lambdaFnArn (cfg : Cfg) (name : String) : String :=
  "arn:aws:lambda:" ++ cfg.region ++ ":" ++ cfg.accountId ++ ":function:" ++ name

/-- Fixed repository name. -/
def repoName : String := "agent-core-tools"

/-- Account-derived bucket name. -/
def bucketName (cfg : Cfg) : String := "agent-core-configs-" ++ cfg.accountId

/-- One statement of an IAM permission policy document. -/
structure PolicyStatement where
  effect : String
  actions : List String
  resources : List String
  deriving Repr, DecidableEq

/-- Configuration of the reactor Lambda as created or converged by setup
(sourceCode identifies the packaged auto_deploy_lambda.py code). -/
structure FnCfg where
  sourceCode : String
  timeout : Nat
  envVars : List (String × String)
  deriving Repr, DecidableEq

/-- Cloud account state touched by setup: resource collections keyed by the
stable resource names.  Role trust documents are not represented (the
adoption branch never rewrites them, so they play no role in the claims). -/
structure InfraState where
  ecrRepos : List String
  s3Buckets : List String
  iamRoles : List String
  attachedPolicies : List (String × String)
  inlinePolicies : List ((String × String) × List PolicyStatement)
  lambdaFns : List (String × FnCfg)
  lambdaPermissions : List (String × String)
  eventRules : List (String × String)
  ruleTargets : List ((String × String) × String)
  codebuildProjects : List String
  deriving Repr, DecidableEq

/-- Create-if-absent: the try create / except already-exists adopt pattern.
The existing entry is kept untouched; a new one is appended. -/
def insertIfAbsent [DecidableEq α] (a : α) (l : List α) : List α :=
  if a ∈ l then l else l ++ [a]

/-- Overwrite-or-create for keyed collections: the convergent put calls. -/
def upsert [DecidableEq κ] (k : κ) (v : ν) : List (κ × ν) → List (κ × ν)
  | [] => [(k, v)]
  | (k2, v2) :: rest =>
      if k2 = k then (k, v) :: rest else (k2, v2) :: upsert k v rest

/-- Value stored under a key in a keyed collection. -/
def lookupKey [DecidableEq κ] (k : κ) : List (κ × ν) → Option ν
  | [] => none
  | (k2, v2) :: rest => if k2 = k then some v2 else lookupKey k rest

/-- Inline policy attached to AgentCoreAutoDeployRole (step 4). -/
def agentCorePolicy (cfg : Cfg) : List PolicyStatement :=
  [⟨"Allow", ["bedrock:*"], ["*"]⟩,
    ⟨"Allow", ["ecr:*"], ["*"]⟩,
    ⟨"Allow", ["s3:*"], ["arn:aws:s3:::" ++ bucketName cfg ++ "*"]⟩,
    ⟨"Allow", ["lambda:*"], ["*"]⟩,
    ⟨"Allow", ["iam:PassRole"], [roleArn cfg "BedrockAgentCoreExecutionRole"]⟩,
    ⟨"Allow", ["logs:*"], ["*"]⟩]

/-- Inline policy attached to AgentCoreCodeBuildRole (step 9). -/
def codeBuildPolicy : List PolicyStatement :=
  [⟨"Allow", ["ecr:*"], ["*"]⟩,
    ⟨"Allow", ["s3:*"], ["*"]⟩,
    ⟨"Allow", ["logs:CreateLogGroup", "logs:CreateLogStream", "logs:PutLogEvents"], ["*"]⟩]

/-- Configuration of the AgentCoreAutoDeployer Lambda: both the create call
and the conflict branch (update_function_code plus
update_function_configuration) leave exactly this configuration. -/
def autoDeployFnCfg (cfg : Cfg) : FnCfg :=
  { sourceCode := "auto_deploy_lambda.py",
    timeout := 300,
    envVars := [("S3_BUCKET", bucketName cfg), ("ECR_REPO", repoName),
      ("AGENT_ROLE_ARN", roleArn cfg "BedrockAgentCoreExecutionRole")] }

/-- EventBridge pattern of step 8, as json.dumps renders it. -/
def ecrPushPattern : String :=
  dumps (.jobj [("source", .jarr [.jstr "aws.ecr"]),
    ("detail-type", .jarr [.jstr "ECR Image Action"]),
    ("detail", .jobj [("action-type", .jarr [.jstr "PUSH"]),
      ("result", .jarr [.jstr "SUCCESS"]),
      ("repository-name", .jarr [.jstr repoName])])])

/-- Identifiers setup resolves; each comes from the create response on the
create path and from the corresponding get call on the adopt path, both of
which are the deterministic derived ARN. -/
structure SetupOut where
  repo : String
  bucket : String
  agentRoleArn : String
  lambdaRoleArn : String
  toolRoleArn : String
  cbRoleArn : String
  autoDeployLambdaArn : String
  deriving Repr, DecidableEq

/-- Step 1: try ecr.create_repository, adopt on RepositoryAlreadyExistsException. -/
def stepRepo (s : InfraState) : InfraState :=
  { s with ecrRepos := insertIfAbsent repoName s.ecrRepos }

/-- Step 2: try s3.create_bucket, adopt on the caught exception. -/
def stepBucket (cfg : Cfg) (s : InfraState) : InfraState :=
  { s with s3Buckets := insertIfAbsent (bucketName cfg) s.s3Buckets }

/-- Steps 3, 4, 5 and 9 create roles: try iam.create_role, adopt the
existing role (get_role) on EntityAlreadyExistsException. -/
def stepRole (name : String) (s : InfraState) : InfraState :=
  { s with iamRoles := insertIfAbsent name s.iamRoles }

/-- iam.attach_role_policy: attaching an already-attached managed policy is
a no-op at the service. -/
def stepAttach (role policyArn : String) (s : InfraState) : InfraState :=
  { s with attachedPolicies := insertIfAbsent (role, policyArn) s.attachedPolicies }

/-- iam.put_role_policy: create or overwrite the named inline policy. -/
def stepInline (role policyName : String) (doc : List PolicyStatement)
    (s : InfraState) : InfraState :=
  { s with inlinePolicies := upsert (role, policyName) doc s.inlinePolicies }

/-- Step 6: try lambda.create_function; on ResourceConflictException update
the code and the configuration, converging to the same configuration. -/
def stepLambdaFn (name : String) (c : FnCfg) (s : InfraState) : InfraState :=
  { s with lambdaFns := upsert name c s.lambdaFns }

/-- Step 7: lambda.add_permission; a duplicate StatementId raises and the
bare except swallows it, leaving the existing grant. -/
def stepPermission (fn sid : String) (s : InfraState) : InfraState :=
  { s with lambdaPermissions := insertIfAbsent (fn, sid) s.lambdaPermissions }

/-- Step 8: events.put_rule creates or updates the rule. -/
def stepRule (name pat : String) (s : InfraState) : InfraState :=
  { s with eventRules := upsert name pat s.eventRules }

/-- Step 8: events.put_targets creates or updates the target with Id 1. -/
def stepTargets (rule tid arn : String) (s : InfraState) : InfraState :=
  { s with ruleTargets := upsert (rule, tid) arn s.ruleTargets }

/-- Step 9: try codebuild.create_project; the already-exists error is
caught and the existing project adopted. -/
def stepProject (name : String) (s : InfraState) : InfraState :=
  { s with codebuildProjects := insertIfAbsent name s.codebuildProjects }

/-- State transformation of one setup run, steps composed in source order:
1 ECR repository, 2 S3 bucket, 3 agent role and managed policy attach,
4 Lambda role and inline policy, 5 tool executor role and managed policy
attach, 6 auto-deploy Lambda create-or-converge, 7 EventBridge invoke
permission, 8 EventBridge rule and target, 9 CodeBuild role, inline policy
and project. -/
def setupState (cfg : Cfg) (s : InfraState) : InfraState :=
  s |> stepRepo
    |> stepBucket cfg
    |> stepRole "BedrockAgentCoreExecutionRole"
    |> stepAttach "BedrockAgentCoreExecutionRole" "arn:aws:iam::aws:policy/AmazonBedrockFullAccess"
    |> stepRole "AgentCoreAutoDeployRole"
    |> stepInline "AgentCoreAutoDeployRole" "AgentCorePolicy" (agentCorePolicy cfg)
    |> stepRole "AgentCoreToolExecutorRole"
    |> stepAttach "AgentCoreToolExecutorRole" "arn:aws:iam::aws:policy/service-role/AWSLambdaBasicExecutionRole"
    |> stepLambdaFn "AgentCoreAutoDeployer" (autoDeployFnCfg cfg)
    |> stepPermission "AgentCoreAutoDeployer" "AllowEventBridge"
    |> stepRule "AgentCoreECRPushTrigger" ecrPushPattern
    |> stepTargets "AgentCoreECRPushTrigger" "1" (lambdaFnArn cfg "AgentCoreAutoDeployer")
    |> stepRole "AgentCoreCodeBuildRole"
    |> stepInline "AgentCoreCodeBuildRole" "CodeBuildPolicy" codeBuildPolicy
    |> stepProject "agent-core-builder"

/-- setup of src/setup.py: the state transformation together with the
resolved identifiers (which depend only on account and region). -/
def setup (cfg : Cfg) (s : InfraState) : InfraState × SetupOut :=
  (setupState cfg s,
    { repo := repoName,
      bucket := bucketName cfg,
      agentRoleArn := roleArn cfg "BedrockAgentCoreExecutionRole",
      lambdaRoleArn := roleArn cfg "AgentCoreAutoDeployRole",
      toolRoleArn := roleArn cfg "AgentCoreToolExecutorRole",
      cbRoleArn := roleArn cfg "AgentCoreCodeBuildRole",
      autoDeployLambdaArn := lambdaFnArn cfg "AgentCoreAutoDeployer" })

theorem mem_insertIfAbsent_self [DecidableEq α] (a : α) (l : List α) :
    a ∈ insertIfAbsent a l := by
  unfold insertIfAbsent
  split
  · assumption
  · simp

theorem mem_insertIfAbsent_of_mem [DecidableEq α] (a b : α) (l : List α)
    (h : b ∈ l) : b ∈ insertIfAbsent a l := by
  unfold insertIfAbsent
  split
  · exact h
  · simp [h]

theorem insertIfAbsent_eq_of_mem [DecidableEq α] (a : α) (l : List α)
    (h : a ∈ l) : insertIfAbsent a l = l := by
  simp [insertIfAbsent, h]

theorem upsert_upsert_self [DecidableEq κ] (k : κ) (v : ν) (l : List (κ × ν)) :
    upsert k v (upsert k v l) = upsert k v l := by
  induction l with
  | nil => simp [upsert]
  | cons hd tl ih =>
    obtain ⟨k2, v2⟩ := hd
    by_cases h : k2 = k
    · simp [upsert, h]
    · simp [upsert, h, ih]

theorem lookupKey_upsert_self [DecidableEq κ] (k : κ) (v : ν) (l : List (κ × ν)) :
    lookupKey k (upsert k v l) = some v := by
  induction l with
  | nil => simp [upsert, lookupKey]
  | cons hd tl ih =>
    obtain ⟨k2, v2⟩ := hd
    by_cases h : k2 = k
    · simp [upsert, lookupKey, h]
    · simp [upsert, lookupKey, h, ih]

theorem lookupKey_upsert_ne [DecidableEq κ] (k k2 : κ) (v2 : ν) (l : List (κ × ν))
    (hne : k2 ≠ k) : lookupKey k (upsert k2 v2 l) = lookupKey k l := by
  induction l with
  | nil => simp [upsert, lookupKey, hne]
  | cons hd tl ih =>
    obtain ⟨k3, v3⟩ := hd
    by_cases h : k3 = k2
    · subst h
      simp [upsert, lookupKey, hne]
    · simp [upsert, lookupKey, h, ih]

theorem upsert_eq_of_lookupKey [DecidableEq κ] (k : κ) (v : ν) (l : List (κ × ν))
    (h : lookupKey k l = some v) : upsert k v l = l := by
  induction l with
  | nil => simp [lookupKey] at h
  | cons hd tl ih =>
    obtain ⟨k2, v2⟩ := hd
    by_cases hk : k2 = k
    · subst hk
      simp [lookupKey] at h
      simp [upsert, h]
    · simp [lookupKey, hk] at h
      simp [upsert, hk, ih h]

end Provisioner

namespace Provisioner

theorem insertIfAbsent_idem [DecidableEq α] (a : α) (l : List α) :
    insertIfAbsent a (insertIfAbsent a l) = insertIfAbsent a l :=
  insertIfAbsent_eq_of_mem _ _ (mem_insertIfAbsent_self _ _)

theorem setupState_ecrRepos (cfg : Cfg) (s : InfraState) :
    (setupState cfg s).ecrRepos = insertIfAbsent repoName s.ecrRepos := rfl

theorem setupState_s3Buckets (cfg : Cfg) (s : InfraState) :
    (setupState cfg s).s3Buckets = insertIfAbsent (bucketName cfg) s.s3Buckets := rfl

theorem setupState_iamRoles (cfg : Cfg) (s : InfraState) :
    (setupState cfg s).iamRoles =
      insertIfAbsent "AgentCoreCodeBuildRole"
        (insertIfAbsent "AgentCoreToolExecutorRole"
          (insertIfAbsent "AgentCoreAutoDeployRole"
            (insertIfAbsent "BedrockAgentCoreExecutionRole" s.iamRoles))) := rfl

theorem setupState_attachedPolicies (cfg : Cfg) (s : InfraState) :
    (setupState cfg s).attachedPolicies =
      insertIfAbsent ("AgentCoreToolExecutorRole", "arn:aws:iam::aws:policy/service-role/AWSLambdaBasicExecutionRole")
        (insertIfAbsent ("BedrockAgentCoreExecutionRole", "arn:aws:iam::aws:policy/AmazonBedrockFullAccess")
          s.attachedPolicies) := rfl

theorem setupState_inlinePolicies (cfg : Cfg) (s : InfraState) :
    (setupState cfg s).inlinePolicies =
      upsert ("AgentCoreCodeBuildRole", "CodeBuildPolicy") codeBuildPolicy
        (upsert ("AgentCoreAutoDeployRole", "AgentCorePolicy") (agentCorePolicy cfg)
          s.inlinePolicies) := rfl

theorem setupState_lambdaFns (cfg : Cfg) (s : InfraState) :
    (setupState cfg s).lambdaFns =
      upsert "AgentCoreAutoDeployer" (autoDeployFnCfg cfg) s.lambdaFns := rfl

theorem setupState_lambdaPermissions (cfg : Cfg) (s : InfraState) :
    (setupState cfg s).lambdaPermissions =
      insertIfAbsent ("AgentCoreAutoDeployer", "AllowEventBridge") s.lambdaPermissions := rfl

theorem setupState_eventRules (cfg : Cfg) (s : InfraState) :
    (setupState cfg s).eventRules =
      upsert "AgentCoreECRPushTrigger" ecrPushPattern s.eventRules := rfl

theorem setupState_ruleTargets (cfg : Cfg) (s : InfraState) :
    (setupState cfg s).ruleTargets =
      upsert ("AgentCoreECRPushTrigger", "1") (lambdaFnArn cfg "AgentCoreAutoDeployer")
        s.ruleTargets := rfl

theorem setupState_codebuildProjects (cfg : Cfg) (s : InfraState) :
    (setupState cfg s).codebuildProjects =
      insertIfAbsent "agent-core-builder" s.codebuildProjects := rfl

theorem InfraState.extEq (t u : InfraState)
    (h1 : t.ecrRepos = u.ecrRepos) (h2 : t.s3Buckets = u.s3Buckets)
    (h3 : t.iamRoles = u.iamRoles) (h4 : t.attachedPolicies = u.attachedPolicies)
    (h5 : t.inlinePolicies = u.inlinePolicies) (h6 : t.lambdaFns = u.lambdaFns)
    (h7 : t.lambdaPermissions = u.lambdaPermissions) (h8 : t.eventRules = u.eventRules)
    (h9 : t.ruleTargets = u.ruleTargets) (h10 : t.codebuildProjects = u.codebuildProjects) :
    t = u := by
  cases t
  cases u
  simp_all

theorem setupState_idem (cfg : Cfg) (s : InfraState) :
    setupState cfg (setupState cfg s) = setupState cfg s := by
  apply InfraState.extEq
  · rw [setupState_ecrRepos, setupState_ecrRepos, insertIfAbsent_idem]
  · rw [setupState_s3Buckets, setupState_s3Buckets, insertIfAbsent_idem]
  · rw [setupState_iamRoles, setupState_iamRoles]
    have hb : "BedrockAgentCoreExecutionRole" ∈
        insertIfAbsent "AgentCoreCodeBuildRole"
          (insertIfAbsent "AgentCoreToolExecutorRole"
            (insertIfAbsent "AgentCoreAutoDeployRole"
              (insertIfAbsent "BedrockAgentCoreExecutionRole" s.iamRoles))) :=
      mem_insertIfAbsent_of_mem _ _ _ (mem_insertIfAbsent_of_mem _ _ _
        (mem_insertIfAbsent_of_mem _ _ _ (mem_insertIfAbsent_self _ _)))
    rw [insertIfAbsent_eq_of_mem _ _ hb]
    have hd : "AgentCoreAutoDeployRole" ∈
        insertIfAbsent "AgentCoreCodeBuildRole"
          (insertIfAbsent "AgentCoreToolExecutorRole"
            (insertIfAbsent "AgentCoreAutoDeployRole"
              (insertIfAbsent "BedrockAgentCoreExecutionRole" s.iamRoles))) :=
      mem_insertIfAbsent_of_mem _ _ _ (mem_insertIfAbsent_of_mem _ _ _
        (mem_insertIfAbsent_self _ _))
    rw [insertIfAbsent_eq_of_mem _ _ hd]
    have ht : "AgentCoreToolExecutorRole" ∈
        insertIfAbsent "AgentCoreCodeBuildRole"
          (insertIfAbsent "AgentCoreToolExecutorRole"
            (insertIfAbsent "AgentCoreAutoDeployRole"
              (insertIfAbsent "BedrockAgentCoreExecutionRole" s.iamRoles))) :=
      mem_insertIfAbsent_of_mem _ _ _ (mem_insertIfAbsent_self _ _)
    rw [insertIfAbsent_eq_of_mem _ _ ht, insertIfAbsent_idem]
  · rw [setupState_attachedPolicies, setupState_attachedPolicies]
    have hb : ("BedrockAgentCoreExecutionRole", "arn:aws:iam::aws:policy/AmazonBedrockFullAccess") ∈
        insertIfAbsent ("AgentCoreToolExecutorRole", "arn:aws:iam::aws:policy/service-role/AWSLambdaBasicExecutionRole")
          (insertIfAbsent ("BedrockAgentCoreExecutionRole", "arn:aws:iam::aws:policy/AmazonBedrockFullAccess")
            s.attachedPolicies) :=
      mem_insertIfAbsent_of_mem _ _ _ (mem_insertIfAbsent_self _ _)
    rw [insertIfAbsent_eq_of_mem _ _ hb, insertIfAbsent_idem]
  · rw [setupState_inlinePolicies, setupState_inlinePolicies]
    have hlk : lookupKey ("AgentCoreAutoDeployRole", "AgentCorePolicy")
        (upsert ("AgentCoreCodeBuildRole", "CodeBuildPolicy") codeBuildPolicy
          (upsert ("AgentCoreAutoDeployRole", "AgentCorePolicy") (agentCorePolicy cfg)
            s.inlinePolicies)) = some (agentCorePolicy cfg) := by
      rw [lookupKey_upsert_ne _ _ _ _ (by decide), lookupKey_upsert_self]
    rw [upsert_eq_of_lookupKey _ _ _ hlk, upsert_upsert_self]
  · rw [setupState_lambdaFns, setupState_lambdaFns, upsert_upsert_self]
  · rw [setupState_lambdaPermissions, setupState_lambdaPermissions, insertIfAbsent_idem]
  · rw [setupState_eventRules, setupState_eventRules, upsert_upsert_self]
  · rw [setupState_ruleTargets, setupState_ruleTargets, upsert_upsert_self]
  · rw [setupState_codebuildProjects, setupState_codebuildProjects, insertIfAbsent_idem]

end Provisioner

/-! ## Claims about the Deployment Reactor -/

namespace AutoDeploy

theorem applyPuts_nil (store : String → String → Option String) :
    applyPuts [] store = store := by
  funext b k
  simp [applyPuts]

/-- Concrete reactor environment used by the witnesses. -/
def envC1 : DeployEnv :=
  { bucket := "agent-core-configs-123456789012",
    repoName := "agent-core-tools",
    agentRoleArn := "arn:aws:iam::123456789012:role/BedrockAgentCoreExecutionRole",
    accountId := "123456789012",
    region := "us-east-1",
    imageDigests := ["sha256:abc"],
    toolExecutorExists := true,
    toolExecutorArn := "arn:aws:lambda:us-east-1:123456789012:function:AgentCoreToolExecutor",
    newAgentId := "AGENT1",
    now := ⟨2026, 10, 12, 7, 5, 3⟩ }

/-- C1: when the repository describes at least one image and the
AgentCoreToolExecutor function exists, the reactor creates exactly one
agent named agent-core- followed by the 14-digit YYYYMMDD-HHMMSS
timestamp, persists the Deployment Record under the versioned key and the
latest pointer key with matching agent_id and image_uri in both, and
returns a 200 summary with the agent id, name, version and image URI. -/
theorem reactor_success_creates_one_agent (env : DeployEnv) (digest : String)
    (rest : List String) (him : env.imageDigests = digest :: rest)
    (hex : env.toolExecutorExists = true) (_hts : env.now.Valid) :
    (lambda_handler env).createdAgents =
      [⟨"agent-core-" ++ strftimeYmdHMS env.now, env.agentRoleArn,
        "anthropic.claude-3-sonnet-20240229-v1:0",
        "You are a helpful assistant with custom tools for weather, calculations, and more."⟩] ∧
    isTimestamp14 (strftimeYmdHMS env.now) = true ∧
    (lambda_handler env).s3Puts =
      [⟨env.bucket, "agents/agent-" ++ strftimeYmdHMS env.now ++ ".json",
        dumpsIndent2 0 (agentInfoOf env digest).toJson, "application/json"⟩,
       ⟨env.bucket, "agents/latest.json",
        dumpsIndent2 0 (agentInfoOf env digest).toJson, "application/json"⟩] ∧
    (agentInfoOf env digest).agent_id = env.newAgentId ∧
    (agentInfoOf env digest).image_uri = imageUriOf env digest ∧
    (lambda_handler env).result =
      ⟨200, dumps (.jobj [("agent_id", .jstr env.newAgentId),
        ("agent_name", .jstr ("agent-core-" ++ strftimeYmdHMS env.now)),
        ("version", .jstr (strftimeYmdHMS env.now)),
        ("image_uri", .jstr (imageUriOf env digest))])⟩ := by
  refine ⟨?_, isTimestamp14_strftime _, ?_, rfl, rfl, ?_⟩ <;>
    simp [lambda_handler, him, hex, agentInfoOf]

theorem reactor_success_creates_one_agent_witness :
    (envC1.imageDigests = "sha256:abc" :: [] ∧ envC1.toolExecutorExists = true ∧
      envC1.now.Valid) ∧
    (lambda_handler envC1).createdAgents =
      [⟨"agent-core-" ++ strftimeYmdHMS envC1.now, envC1.agentRoleArn,
        "anthropic.claude-3-sonnet-20240229-v1:0",
        "You are a helpful assistant with custom tools for weather, calculations, and more."⟩] ∧
    isTimestamp14 (strftimeYmdHMS envC1.now) = true :=
  ⟨⟨rfl, rfl, by decide⟩,
    (reactor_success_creates_one_agent envC1 "sha256:abc" [] rfl rfl (by decide)).1,
    (reactor_success_creates_one_agent envC1 "sha256:abc" [] rfl rfl (by decide)).2.1⟩

/-- C2: on an empty repository the reactor returns the 400 No images found
result with an empty effect log — in particular no function update, no
agent creation and no record write, so any stored latest record is
unchanged. -/
theorem reactor_empty_repo_no_effects (env : DeployEnv)
    (him : env.imageDigests = []) :
    lambda_handler env = noEffects ⟨400, "No images found"⟩ ∧
    (∀ store : String → String → Option String,
      applyPuts (lambda_handler env).s3Puts store = store) := by
  have h : lambda_handler env = noEffects ⟨400, "No images found"⟩ := by
    simp [lambda_handler, him]
  refine ⟨h, fun store => ?_⟩
  rw [h]
  exact applyPuts_nil store

theorem reactor_empty_repo_no_effects_witness :
    ({ envC1 with imageDigests := [] } : DeployEnv).imageDigests = [] ∧
    lambda_handler { envC1 with imageDigests := [] } =
      noEffects ⟨400, "No images found"⟩ :=
  ⟨rfl, (reactor_empty_repo_no_effects { envC1 with imageDigests := [] } rfl).1⟩

/-- C5: when the repository is non-empty but AgentCoreToolExecutor does not
exist, the reactor returns the 400 Lambda not found result with an empty
effect log — it never creates the function, an agent or a record. -/
theorem reactor_missing_lambda_aborts (env : DeployEnv) (digest : String)
    (rest : List String) (him : env.imageDigests = digest :: rest)
    (hex : env.toolExecutorExists = false) :
    lambda_handler env = noEffects ⟨400, "Lambda not found"⟩ ∧
    (∀ store : String → String → Option String,
      applyPuts (lambda_handler env).s3Puts store = store) := by
  have h : lambda_handler env = noEffects ⟨400, "Lambda not found"⟩ := by
    simp [lambda_handler, him, hex]
  refine ⟨h, fun store => ?_⟩
  rw [h]
  exact applyPuts_nil store

theorem reactor_missing_lambda_aborts_witness :
    (({ envC1 with toolExecutorExists := false } : DeployEnv).imageDigests =
        "sha256:abc" :: [] ∧
      ({ envC1 with toolExecutorExists := false } : DeployEnv).toolExecutorExists = false) ∧
    lambda_handler { envC1 with toolExecutorExists := false } =
      noEffects ⟨400, "Lambda not found"⟩ :=
  ⟨⟨rfl, rfl⟩,
    (reactor_missing_lambda_aborts { envC1 with toolExecutorExists := false }
      "sha256:abc" [] rfl rfl).1⟩

/-- C9: on a successful reactor run the body written under the versioned
key is byte-identical to the body written under the latest key, the record
has version equal to created_at (the single timestamp captured at the start
of the invocation), and reading agents/latest.json back from the updated
store yields exactly that body. -/
theorem record_bodies_identical (env : DeployEnv) (digest : String)
    (rest : List String) (him : env.imageDigests = digest :: rest)
    (hex : env.toolExecutorExists = true) :
    (lambda_handler env).s3Puts =
      [⟨env.bucket, "agents/agent-" ++ (agentInfoOf env digest).version ++ ".json",
        dumpsIndent2 0 (agentInfoOf env digest).toJson, "application/json"⟩,
       ⟨env.bucket, "agents/latest.json",
        dumpsIndent2 0 (agentInfoOf env digest).toJson, "application/json"⟩] ∧
    (agentInfoOf env digest).version = (agentInfoOf env digest).created_at ∧
    (∀ store : String → String → Option String,
      applyPuts (lambda_handler env).s3Puts store env.bucket "agents/latest.json" =
        some (dumpsIndent2 0 (agentInfoOf env digest).toJson)) := by
  have hp : (lambda_handler env).s3Puts =
      [⟨env.bucket, "agents/agent-" ++ (agentInfoOf env digest).version ++ ".json",
        dumpsIndent2 0 (agentInfoOf env digest).toJson, "application/json"⟩,
       ⟨env.bucket, "agents/latest.json",
        dumpsIndent2 0 (agentInfoOf env digest).toJson, "application/json"⟩] := by
    simp [lambda_handler, him, hex, agentInfoOf]
  refine ⟨hp, rfl, fun store => ?_⟩
  rw [hp]
  simp [applyPuts]

theorem record_bodies_identical_witness :
    (envC1.imageDigests = "sha256:abc" :: [] ∧ envC1.toolExecutorExists = true) ∧
    (agentInfoOf envC1 "sha256:abc").version = (agentInfoOf envC1 "sha256:abc").created_at ∧
    (∀ store : String → String → Option String,
      applyPuts (lambda_handler envC1).s3Puts store envC1.bucket "agents/latest.json" =
        some (dumpsIndent2 0 (agentInfoOf envC1 "sha256:abc").toJson)) :=
  ⟨⟨rfl, rfl⟩,
    (record_bodies_identical envC1 "sha256:abc" [] rfl rfl).2.1,
    (record_bodies_identical envC1 "sha256:abc" [] rfl rfl).2.2⟩

end AutoDeploy

/-! ## Claims about the Build Trigger -/

namespace BuildTrigger

theorem pollBuild_append_terminal (pre : List BuildStatus) (t : BuildStatus)
    (hpre : ∀ s ∈ pre, isTerminal s = false) (hterm : isTerminal t = true) :
    pollBuild (pre ++ [t]) = some (t == .succeeded) := by
  induction pre with
  | nil =>
    cases t <;> simp_all [pollBuild, isTerminal, isFailureStatus]
  | cons s pre ih =>
    have hs := hpre s (List.mem_cons_self s pre)
    have hrest : ∀ s2 ∈ pre, isTerminal s2 = false := fun s2 h2 =>
      hpre s2 (List.mem_cons_of_mem s h2)
    cases s <;> simp_all [pollBuild, isTerminal, isFailureStatus]

/-- Concrete deploy world used by the witness: a build that goes
PENDING, IN_PROGRESS and then FAILED. -/
def worldC3 : World :=
  { statuses := [.pending, .inProgress, .failed],
    imageDigests := ["sha256:abc"],
    toolExecutorExists := true,
    accountId := "123456789012",
    region := "us-east-1" }

/-- C3: for a polled status sequence ending in a terminal status, the
trigger reports success exactly when that status is SUCCEEDED; on any of
the failure terminals it returns the failure result whose effect log shows
no image query, no function create or update and no config read. -/
theorem build_trigger_terminal (w : World) (pre : List BuildStatus)
    (t : BuildStatus) (hst : w.statuses = pre ++ [t])
    (hpre : ∀ s ∈ pre, isTerminal s = false)
    (hterm : isTerminal t = true) :
    pollBuild w.statuses = some (t == .succeeded) ∧
    (isFailureStatus t = true →
      deploy w = .ok preBuildLog) := by
  have hpoll : pollBuild w.statuses = some (t == .succeeded) := by
    rw [hst]
    exact pollBuild_append_terminal pre t hpre hterm
  refine ⟨hpoll, fun hf => ?_⟩
  have hne : (t == BuildStatus.succeeded) = false := by
    cases t <;> simp_all [isFailureStatus]
  unfold deploy
  rw [hpoll, hne]

theorem build_trigger_terminal_witness :
    (worldC3.statuses = [.pending, .inProgress] ++ [.failed] ∧
      (∀ s ∈ ([.pending, .inProgress] : List BuildStatus), isTerminal s = false) ∧
      isTerminal .failed = true ∧ isFailureStatus .failed = true) ∧
    pollBuild worldC3.statuses = some (BuildStatus.failed == .succeeded) ∧
    deploy worldC3 = .ok preBuildLog :=
  ⟨⟨rfl, by decide, rfl, rfl⟩,
    (build_trigger_terminal worldC3 [.pending, .inProgress] .failed rfl
      (by decide) rfl).1,
    (build_trigger_terminal worldC3 [.pending, .inProgress] .failed rfl
      (by decide) rfl).2 rfl⟩

end BuildTrigger

/-! ## Claims about the Tool Executor -/

namespace ToolExecutor

/-- Concrete executor environment with every timezone valid (pytz accepts
UTC and the common area names). -/
def pyEnvTrue : PyEnv :=
  ⟨fun _ => true, fun _ => "07:05 AM", fun _ => "2026-10-12", fun _ => "Monday"⟩

/-- Specification example: calculate 123 + 456. -/
def evCalculate : ToolEvent :=
  ⟨none, none, some "calculate", [⟨"a", "123"⟩, ⟨"b", "456"⟩]⟩

/-- Specification example: get_weather for Tokyo. -/
def evWeather : ToolEvent :=
  ⟨none, none, some "get_weather", [⟨"city", "Tokyo"⟩]⟩

/-- Specification example: unknown_tool with empty parameters. -/
def evUnknown : ToolEvent :=
  ⟨none, none, some "unknown_tool", []⟩

/-- Unknown tool with an action group, for the universal unknown case. -/
def evMyTool : ToolEvent :=
  ⟨some "test-group", none, some "mytool", []⟩

/-- Calculate with a non-numeric first parameter. -/
def evBadCalc : ToolEvent :=
  ⟨none, none, some "calculate", [⟨"a", "abc"⟩, ⟨"b", "456"⟩]⟩

/-- get_weather with no city parameter. -/
def evWeatherNoCity : ToolEvent :=
  ⟨none, none, some "get_weather", []⟩

/-- calculate with an empty parameter list. -/
def evCalcEmpty : ToolEvent :=
  ⟨none, none, some "calculate", []⟩

/-- calculate with only b supplied. -/
def evCalcOnlyB : ToolEvent :=
  ⟨none, none, some "calculate", [⟨"b", "5"⟩]⟩

/-- get_time with no timezone parameter. -/
def evTimeNoTz : ToolEvent :=
  ⟨none, none, some "get_time", []⟩

/-- C6: the three specification examples — calculate 123 + 456 serializes
to result 579.0, get_weather Tokyo yields the Sunny in Tokyo body, and an
unknown tool name, the unknown_tool example included, does not fail but
returns the structured Unknown tool error body. -/
theorem tool_executor_examples (env : PyEnv) (e : ToolEvent) (t : String)
    (hname : toolName e = some t) (hw : t ≠ "get_weather")
    (hc : t ≠ "calculate") (hg : t ≠ "get_time") :
    lambda_handler env evCalculate =
      .ok (bedrockEnvelope none (some "calculate") "\x7b\"result\": 579.0\x7d") ∧
    lambda_handler env evWeather =
      .ok (bedrockEnvelope none (some "get_weather")
        "\x7b\"weather\": \"Sunny in Tokyo\", \"temperature\": 72, \"humidity\": 65\x7d") ∧
    lambda_handler env evUnknown =
      .ok (bedrockEnvelope none (some "unknown_tool")
        "\x7b\"error\": \"Unknown tool: unknown_tool\"\x7d") ∧
    lambda_handler env e =
      .ok (bedrockEnvelope e.actionGroup e.function
        (dumps (.jobj [("error", .jstr ("Unknown tool: " ++ t))]))) := by
  have hcalc : lambda_handler env evCalculate =
      .ok (bedrockEnvelope none (some "calculate")
        (dumps (.jobj [("result", .jfloat ((123 : Rat) + 456))]))) := rfl
  rw [show ((123 : Rat) + 456) = 579 from by norm_num] at hcalc
  refine ⟨hcalc, rfl, rfl, ?_⟩
  simp [lambda_handler, toolResult, hname, hw, hc, hg, optionText]

theorem tool_executor_examples_witness :
    (toolName evMyTool = some "mytool" ∧ ("mytool" : String) ≠ "get_weather" ∧
      ("mytool" : String) ≠ "calculate" ∧ ("mytool" : String) ≠ "get_time") ∧
    lambda_handler pyEnvTrue evCalculate =
      .ok (bedrockEnvelope none (some "calculate") "\x7b\"result\": 579.0\x7d") ∧
    lambda_handler pyEnvTrue evMyTool =
      .ok (bedrockEnvelope evMyTool.actionGroup evMyTool.function
        (dumps (.jobj [("error", .jstr ("Unknown tool: " ++ "mytool"))]))) :=
  ⟨⟨rfl, by decide, by decide, by decide⟩,
    (tool_executor_examples pyEnvTrue evMyTool "mytool" rfl (by decide)
      (by decide) (by decide)).1,
    (tool_executor_examples pyEnvTrue evMyTool "mytool" rfl (by decide)
      (by decide) (by decide)).2.2.2⟩

/-- C7 counterexample: a known tool (calculate) invoked with the
non-numeric parameter value abc does not return a structured error body —
float() raises ValueError, which nothing in the handler catches, so the
invocation fails with a process-level fault. -/
theorem calculate_invalid_param_faults :
    lambda_handler pyEnvTrue evBadCalc =
      .error (.valueError "could not convert string to float: abc") := rfl

/-- C7 as amended: the structured-error-on-invalid-parameter behavior holds
for get_time — a malformed timezone is caught by the try/except around the
pytz lookup and reported as an Invalid timezone object in the result
body — but not for calculate, whose non-numeric parameters raise an
uncaught ValueError (see the counterexample). -/
theorem get_time_invalid_timezone_structured_error (env : PyEnv)
    (e : ToolEvent) (tz : String) (hname : toolName e = some "get_time")
    (htz : paramsGet e.parameters "timezone" = some tz)
    (hbad : env.validTz tz = false) :
    lambda_handler env e =
      .ok (bedrockEnvelope e.actionGroup e.function
        (dumps (.jobj [("error", .jstr ("Invalid timezone: " ++ tz))]))) := by
  simp [lambda_handler, toolResult, hname, htz, timeResult, hbad]

/-- Executor environment rejecting every timezone name. -/
def pyEnvNoTz : PyEnv :=
  ⟨fun _ => false, fun _ => "07:05 AM", fun _ => "2026-10-12", fun _ => "Monday"⟩

/-- get_time with a malformed timezone name. -/
def evBadTz : ToolEvent :=
  ⟨none, none, some "get_time", [⟨"timezone", "Mars/Olympus"⟩]⟩

theorem get_time_invalid_timezone_witness :
    (toolName evBadTz = some "get_time" ∧
      paramsGet evBadTz.parameters "timezone" = some "Mars/Olympus" ∧
      pyEnvNoTz.validTz "Mars/Olympus" = false) ∧
    lambda_handler pyEnvNoTz evBadTz =
      .ok (bedrockEnvelope evBadTz.actionGroup evBadTz.function
        (dumps (.jobj [("error", .jstr ("Invalid timezone: " ++ "Mars/Olympus"))]))) :=
  ⟨⟨rfl, rfl, rfl⟩,
    get_time_invalid_timezone_structured_error pyEnvNoTz evBadTz "Mars/Olympus"
      rfl rfl rfl⟩

/-- C8: whenever the executor returns, the returned value is the fixed
envelope with messageVersion 1.0, the echoed actionGroup and function
fields of the request, and the tool result serialized by json.dumps as the
TEXT body. -/
theorem envelope_fixed_shape (env : PyEnv) (e : ToolEvent) (r : JValue)
    (h : lambda_handler env e = .ok r) :
    ∃ result : JValue, toolResult env e = .ok result ∧
      r = bedrockEnvelope e.actionGroup e.function (dumps result) := by
  cases hr : toolResult env e with
  | ok result =>
      refine ⟨result, rfl, ?_⟩
      simp [lambda_handler, hr] at h
      exact h.symm
  | error err =>
      simp [lambda_handler, hr] at h

theorem envelope_fixed_shape_witness :
    lambda_handler pyEnvTrue evWeather =
      .ok (bedrockEnvelope none (some "get_weather")
        "\x7b\"weather\": \"Sunny in Tokyo\", \"temperature\": 72, \"humidity\": 65\x7d") ∧
    ∃ result : JValue, toolResult pyEnvTrue evWeather = .ok result ∧
      bedrockEnvelope none (some "get_weather")
          "\x7b\"weather\": \"Sunny in Tokyo\", \"temperature\": 72, \"humidity\": 65\x7d" =
        bedrockEnvelope evWeather.actionGroup evWeather.function (dumps result) :=
  ⟨rfl, envelope_fixed_shape pyEnvTrue evWeather _ rfl⟩

/-- C10: missing required parameters are defaulted rather than rejected —
get_weather without city answers for Unknown, calculate treats a missing
operand as 0 (an empty parameter list gives result 0.0), and get_time
without timezone uses UTC. -/
theorem default_parameters (env : PyEnv) (e : ToolEvent) (s : String) (v : Rat)
    (hname : toolName e = some "calculate")
    (ha : paramsGet e.parameters "a" = none)
    (hb : paramsGet e.parameters "b" = some s)
    (hv : pyFloat s = some v) :
    lambda_handler env evWeatherNoCity =
      .ok (bedrockEnvelope none (some "get_weather")
        "\x7b\"weather\": \"Sunny in Unknown\", \"temperature\": 72, \"humidity\": 65\x7d") ∧
    lambda_handler env evCalcEmpty =
      .ok (bedrockEnvelope none (some "calculate") "\x7b\"result\": 0.0\x7d") ∧
    lambda_handler env e =
      .ok (bedrockEnvelope e.actionGroup e.function
        (dumps (.jobj [("result", .jfloat v)]))) ∧
    lambda_handler env evTimeNoTz =
      .ok (bedrockEnvelope none (some "get_time") (dumps (timeResult env "UTC"))) := by
  have hempty : lambda_handler env evCalcEmpty =
      .ok (bedrockEnvelope none (some "calculate")
        (dumps (.jobj [("result", .jfloat ((0 : Rat) + 0))]))) := rfl
  rw [show ((0 : Rat) + 0) = 0 from by norm_num] at hempty
  refine ⟨rfl, hempty, ?_, rfl⟩
  simp [lambda_handler, toolResult, hname, ha, hb, floatOfParam, hv]

theorem default_parameters_witness :
    (toolName evCalcOnlyB = some "calculate" ∧
      paramsGet evCalcOnlyB.parameters "a" = none ∧
      paramsGet evCalcOnlyB.parameters "b" = some "5" ∧
      pyFloat "5" = some 5) ∧
    lambda_handler pyEnvTrue evCalcEmpty =
      .ok (bedrockEnvelope none (some "calculate") "\x7b\"result\": 0.0\x7d") ∧
    lambda_handler pyEnvTrue evCalcOnlyB =
      .ok (bedrockEnvelope evCalcOnlyB.actionGroup evCalcOnlyB.function
        (dumps (.jobj [("result", .jfloat 5)]))) :=
  ⟨⟨rfl, rfl, rfl, rfl⟩,
    (default_parameters pyEnvTrue evCalcOnlyB "5" 5 rfl rfl rfl rfl).2.1,
    (default_parameters pyEnvTrue evCalcOnlyB "5" 5 rfl rfl rfl rfl).2.2.1⟩

end ToolExecutor

/-! ## Claim about the Resource Provisioner -/

namespace Provisioner

/-- C4: running setup twice in a row is idempotent — the second run leaves
the cloud state exactly as the first run left it (every create adopts the
existing resource, every convergent put rewrites the same configuration, so
no duplicate resource appears), and the identifiers and ARNs the second run
resolves equal the first run's. -/
theorem setup_idempotent (cfg : Cfg) (s : InfraState) :
    setup cfg (setup cfg s).1 = setup cfg s ∧
    (setup cfg (setup cfg s).1).2 = (setup cfg s).2 := by
  have h : setup cfg (setup cfg s).1 = setup cfg s := by
    unfold setup
    exact Prod.ext (setupState_idem cfg s) rfl
  exact ⟨h, congrArg Prod.snd h⟩

end Provisioner
